import Mathlib

set_option maxRecDepth 100000

/-!
Verification development for the `cryptocom` Python client library
(`cryptocom/api.py`).  The definitions below are a shallow embedding of the
code: Python dictionaries become association lists (insertion-ordered, unique
keys), Python values become the `JVal` type, machine words are `Nat` reduced
modulo `2 ^ 32`, and Python exceptions are made explicit with `Except`.
`hashlib.sha256` and `hmac` are modelled by an executable SHA-256 /
HMAC-SHA-256 implementation over byte lists (UTF-8 encoded strings, as the
Python code encodes every string before hashing).
-/

/-! ### Bytes and 32-bit words -/

/-- UTF-8 bytes of a string, as natural numbers; models Python's
`str.encode()` / `bytes(s, 'utf-8')`. -/
def strBytes (s : String) : List Nat :=
  (s.data.flatMap String.utf8EncodeChar).map UInt8.toNat

/-- Truncation to a 32-bit word. -/
def w32 (n : Nat) : Nat := n % 4294967296

/-- 32-bit addition. -/
def add32 (a b : Nat) : Nat := w32 (a + b)

/-- Right rotation of a 32-bit word. -/
def rotr32 (n x : Nat) : Nat := w32 ((x >>> n) ||| (x <<< (32 - n)))

/-- Bitwise complement of a 32-bit word. -/
def not32 (x : Nat) : Nat := x ^^^ 4294967295

/-! ### SHA-256 (FIPS 180-4), executable -/

def shaCh (x y z : Nat) : Nat := (x &&& y) ^^^ (not32 x &&& z)

def shaMaj (x y z : Nat) : Nat := (x &&& y) ^^^ (x &&& z) ^^^ (y &&& z)

def bigSigma0 (x : Nat) : Nat := rotr32 2 x ^^^ rotr32 13 x ^^^ rotr32 22 x

def bigSigma1 (x : Nat) : Nat := rotr32 6 x ^^^ rotr32 11 x ^^^ rotr32 25 x

def smallSigma0 (x : Nat) : Nat := rotr32 7 x ^^^ rotr32 18 x ^^^ (x >>> 3)

def smallSigma1 (x : Nat) : Nat := rotr32 17 x ^^^ rotr32 19 x ^^^ (x >>> 10)

/-- The 64 SHA-256 round constants (decimal). -/
def shaK : List Nat :=
  [1116352408, 1899447441, 3049323471, 3921009573, 961987163,
   1508970993, 2453635748, 2870763221, 3624381080, 310598401,
   607225278, 1426881987, 1925078388, 2162078206, 2614888103,
   3248222580, 3835390401, 4022224774, 264347078, 604807628,
   770255983, 1249150122, 1555081692, 1996064986, 2554220882,
   2821834349, 2952996808, 3210313671, 3336571891, 3584528711,
   113926993, 338241895, 666307205, 773529912, 1294757372,
   1396182291, 1695183700, 1986661051, 2177026350, 2456956037,
   2730485921, 2820302411, 3259730800, 3345764771, 3516065817,
   3600352804, 4094571909, 275423344, 430227734, 506948616,
   659060556, 883997877, 958139571, 1322822218, 1537002063,
   1747873779, 1955562222, 2024104815, 2227730452, 2361852424,
   2428436474, 2756734187, 3204031479, 3329325298]

/-- Initial SHA-256 hash value (decimal). -/
def shaH0 : List Nat :=
  [1779033703, 3144134277, 1013904242, 2773480762,
   1359893119, 2600822924, 528734635, 1541459225]

/-- Big-endian 8-byte encoding of a (bit-length) counter. -/
def be64 (n : Nat) : List Nat :=
  [n >>> 56 % 256, n >>> 48 % 256, n >>> 40 % 256, n >>> 32 % 256,
   n >>> 24 % 256, n >>> 16 % 256, n >>> 8 % 256, n % 256]

/-- Big-endian bytes of a 32-bit word. -/
def wordBytes (v : Nat) : List Nat :=
  [v >>> 24 % 256, v >>> 16 % 256, v >>> 8 % 256, v % 256]

/-- SHA-256 padding: append `0x80`, zeros to 56 mod 64, then the 64-bit
big-endian bit length. -/
def shaPad (msg : List Nat) : List Nat :=
  msg ++ 0x80 :: List.replicate ((119 - msg.length % 64) % 64) 0
      ++ be64 (msg.length * 8)

/-- Group bytes into big-endian 32-bit words. -/
def toWords : List Nat → List Nat
  | b0 :: b1 :: b2 :: b3 :: rest =>
      (((b0 * 256 + b1) * 256 + b2) * 256 + b3) :: toWords rest
  | _ => []

/-- Group a word list into 16-word blocks (the padded input length is always
a multiple of 16 words). -/
def toBlocks : List Nat → List (List Nat)
  | w0 :: w1 :: w2 :: w3 :: w4 :: w5 :: w6 :: w7 ::
    w8 :: w9 :: w10 :: w11 :: w12 :: w13 :: w14 :: w15 :: rest =>
      [w0, w1, w2, w3, w4, w5, w6, w7,
       w8, w9, w10, w11, w12, w13, w14, w15] :: toBlocks rest
  | _ => []

/-- Message-schedule extension, keeping the schedule in reverse order
(newest word at the head), so `W[t-2]` is index 1, `W[t-7]` index 6,
`W[t-15]` index 14, `W[t-16]` index 15. -/
def extendSchedRev : Nat → List Nat → List Nat
  | 0, acc => acc
  | n + 1, acc =>
      extendSchedRev n
        (add32 (add32 (smallSigma1 (acc.getD 1 0)) (acc.getD 6 0))
               (add32 (smallSigma0 (acc.getD 14 0)) (acc.getD 15 0)) :: acc)

/-- The full 64-entry message schedule of one block. -/
def schedule (block : List Nat) : List Nat :=
  (extendSchedRev 48 block.reverse).reverse

/-- One round of the SHA-256 compression function on state
`[a, b, c, d, e, f, g, h]`. -/
def shaStep (st : List Nat) (kw : Nat × Nat) : List Nat :=
  match st with
  | [a, b, c, d, e, f, g, h] =>
      let t1 := add32 (add32 (add32 h (bigSigma1 e))
                             (add32 (shaCh e f g) kw.1)) kw.2
      let t2 := add32 (bigSigma0 a) (shaMaj a b c)
      [add32 t1 t2, a, b, c, add32 d t1, e, f, g]
  | other => other

/-- Compress one 16-word block into the running hash. -/
def shaCompress (h : List Nat) (block : List Nat) : List Nat :=
  List.zipWith add32 h ((shaK.zip (schedule block)).foldl shaStep h)

/-- SHA-256 digest (32 bytes) of a byte list. -/
def sha256 (msg : List Nat) : List Nat :=
  ((toBlocks (toWords (shaPad msg))).foldl shaCompress shaH0).flatMap wordBytes

/-- Lower-case hex character for a nibble. -/
def hexChar (n : Nat) : Char :=
  if n < 10 then Char.ofNat (48 + n) else Char.ofNat (87 + n)

/-- Lower-case hex string of a byte list, as Python's `hexdigest()`. -/
def hexDigest (bytes : List Nat) : String :=
  String.mk (bytes.flatMap fun b => [hexChar (b / 16), hexChar (b % 16)])

/-- HMAC-SHA-256 (RFC 2104) of a message under a key, both byte lists;
models Python's `hmac.new(key, msg, hashlib.sha256)`. -/
def hmacSha256 (key msg : List Nat) : List Nat :=
  let k0 := if key.length > 64 then sha256 key else key
  let k := k0 ++ List.replicate (64 - k0.length) 0
  sha256 ((k.map (Nat.xor 0x5c)) ++ sha256 ((k.map (Nat.xor 0x36)) ++ msg))

/-- `hashlib.sha256(s.encode()).hexdigest()`. -/
def sha256HexOfString (s : String) : String := hexDigest (sha256 (strBytes s))

/-- `hmac.new(bytes(key,'utf-8'), bytes(msg,'utf-8'), hashlib.sha256).hexdigest()`. -/
def hmacSha256Hex (key msg : String) : String :=
  hexDigest (hmacSha256 (strBytes key) (strBytes msg))

/-- FIPS 180-4 test vector: a known digest pins down the SHA-256 model. -/
theorem sha256_known_vector :
    sha256HexOfString "abc" =
      "ba7816bf8f01cfea414140de5dae2223b00361a396177a9cb410ff61f20015ad" := by
  decide

/-- RFC 4231-style test vector for the HMAC-SHA-256 model. -/
theorem hmac_known_vector :
    hmacSha256Hex "key" "The quick brown fox jumps over the lazy dog" =
      "f7bc83f430538424b13298e6aa6fb143ef4d59a14946175997479dbc2d1a3cd8" := by
  decide

/-! ### The data model of `cryptocom/api.py` -/

/-- `CryptoComApi.ApiVersion`: the two API generations. `V1` is the legacy
generation, `V2` the current one. -/
inductive ApiVersion where
  | V1 : ApiVersion
  | V2 : ApiVersion
  deriving DecidableEq

/-- A Python scalar value as it occurs in request-parameter dictionaries of
this client (strings, ints, booleans, `None`). -/
inductive PVal where
  | str (s : String) : PVal
  | num (n : Int) : PVal
  | bool (b : Bool) : PVal
  | none_ : PVal
  deriving DecidableEq

/-- A Python dict of request parameters: insertion-ordered association list
with unique keys. -/
abbrev Params : Type := List (String × PVal)

/-- Python `str(...)` on a scalar parameter value. -/
def pyStr : PVal → String
  | .str s => s
  | .num n => toString n
  | .bool b => if b then "True" else "False"
  | .none_ => "None"

/-- Python truthiness of a scalar parameter value. -/
def pyTruthy : PVal → Bool
  | .str s => s ≠ ""
  | .num n => n ≠ 0
  | .bool b => b
  | .none_ => false

/-- Python `str(x)` where `x` is an `int` or `None` (as applied to the
`nonce` argument of `_sign`). -/
def pyStrOptInt : Option Int → String
  | Option.none => "None"
  | some n => toString n

/-- Models `str(id) if id else ""`: Python truthiness treats both `None`
and `0` as false. -/
def idFragment : Option Int → String
  | Option.none => ""
  | some i => if i = 0 then "" else toString i

/-- The key order used by Python's `sorted` on a dict's string keys:
lexicographic by code point, i.e. the lexicographic order of the
underlying character lists. -/
def keyLe (a b : String) : Prop := a.data ≤ b.data

instance : DecidableRel keyLe := by unfold keyLe; infer_instance

instance : IsTotal String keyLe := ⟨fun a b => le_total a.data b.data⟩

instance : IsTrans String keyLe := ⟨fun _ _ _ h h' => le_trans h h'⟩

instance : IsAntisymm String keyLe :=
  ⟨fun _ _ h h' => String.ext (le_antisymm h h')⟩

/-- `sorted(params.keys())`. -/
def sortedKeys (params : Params) : List String :=
  List.insertionSort keyLe (params.map Prod.fst)

/-- `str(params[key])`: dict lookup plus stringification (the lookup always
succeeds, since the keys iterated over come from the same dict). -/
def lookupStr (params : Params) (k : String) : String :=
  match List.lookup k params with
  | some v => pyStr v
  | Option.none => ""

/-- The accumulation loop of `_sign`:
`to_sign = ""; for key in sorted(params.keys()): to_sign += key + str(params[key])`. -/
def toSignStr (params : Params) : String :=
  (sortedKeys params).foldl (fun acc k => acc ++ (k ++ lookupStr params k)) ""

/-- `CryptoComApi._sign(params, method, id, nonce)`.  `key`/`secret` are the
client's credential fields.  Returns `none` exactly when the Python code
would raise: in the `V2` branch with `method is None`, the expression
`method + ...` is a `TypeError`. -/
def _sign (version : ApiVersion) (key secret : String) (params : Params)
    (method : Option String) (id : Option Int) (nonce : Option Int) :
    Option String :=
  let to_sign := toSignStr params
  match version with
  | ApiVersion.V1 => some (sha256HexOfString (to_sign ++ secret))
  | ApiVersion.V2 =>
      match method with
      | Option.none => Option.none
      | some m =>
          some (hmacSha256Hex secret
            (m ++ idFragment id ++ key ++ to_sign ++ pyStrOptInt nonce))

/-! ### Spec-side signing formulas (for refinement claims) -/

/-- Modelled from the spec's words: "concatenate, for each key in ascending
lexicographic order, `key + stringValue`" — a flat concatenation over the
sorted key list. -/
def specSortedConcat (params : Params) : String :=
  ((sortedKeys params).map fun k => k ++ lookupStr params k).foldr (· ++ ·) ""

/-- Modelled from the spec's words for generation A: hash the sorted
concatenation with the raw secret appended, SHA-256 hex digest. -/
def specSignV1 (secret : String) (params : Params) : String :=
  sha256HexOfString (specSortedConcat params ++ secret)

/-- The claim's formula for generation B, exactly as stated: HMAC-SHA-256
keyed by the secret over `method + (id stringified if present, else "") +
apiKey + sortedConcat + nonce`. -/
def specSignV2AsStated (key secret : String) (params : Params)
    (method : String) (id : Option Int) (nonce : Int) : String :=
  hmacSha256Hex secret
    (method ++ (match id with | some i => toString i | Option.none => "")
      ++ key ++ specSortedConcat params ++ toString nonce)

/-- The claim's generation-B formula with the id fragment amended to match
Python truthiness: an id that is present but `0` contributes nothing. -/
def specSignV2 (key secret : String) (params : Params)
    (method : String) (id : Option Int) (nonce : Int) : String :=
  hmacSha256Hex secret
    (method ++ idFragment id ++ key ++ specSortedConcat params
      ++ toString nonce)

/-- A left accumulation of appends equals the right-nested concatenation,
for any per-key fragment function. -/
theorem foldl_append_eq_foldr (g : String → String) :
    ∀ (ks : List String) (init : String),
      ks.foldl (fun acc k => acc ++ g k) init
        = init ++ (ks.map g).foldr (· ++ ·) "" := by
  intro ks
  induction ks with
  | nil => intro init; simp [String.append_empty]
  | cons k ks ih =>
      intro init
      simp only [List.foldl_cons, List.map_cons, List.foldr_cons]
      rw [ih (init ++ g k), String.append_assoc]

/-- The fold in `_sign` is the flat concatenation of the spec. -/
theorem toSignStr_eq_specSortedConcat (params : Params) :
    toSignStr params = specSortedConcat params := by
  unfold toSignStr specSortedConcat
  rw [foldl_append_eq_foldr (fun k => k ++ lookupStr params k) (sortedKeys params) "",
      String.empty_append]

/-! ### Insertion-order independence of signing -/

/-- Dict lookup is stable under permutation of an association list whose
keys are distinct. -/
theorem lookup_eq_of_perm {l1 l2 : List (String × PVal)} (p : l1.Perm l2)
    (nd : (l1.map Prod.fst).Nodup) (k : String) :
    List.lookup k l1 = List.lookup k l2 := by
  induction p with
  | nil => rfl
  | cons x p ih =>
      obtain ⟨k', v'⟩ := x
      simp only [List.map_cons, List.nodup_cons] at nd
      by_cases h : k = k'
      · subst h; simp [List.lookup]
      · have hb : (k == k') = false := beq_false_of_ne h
        simp [List.lookup, hb, ih nd.2]
  | swap x y t =>
      obtain ⟨kx, vx⟩ := x
      obtain ⟨ky, vy⟩ := y
      simp only [List.map_cons, List.nodup_cons, List.mem_cons] at nd
      have hxy : ky ≠ kx := fun h => nd.1 (Or.inl h)
      by_cases hky : k = ky
      · have h1 : (k == ky) = true := beq_iff_eq.mpr hky
        have h2 : (k == kx) = false :=
          beq_false_of_ne (fun h => hxy (hky.symm.trans h))
        simp [List.lookup, h1, h2]
      · by_cases hkx : k = kx
        · subst hkx
          have : (k == ky) = false := beq_false_of_ne hky
          simp [List.lookup, this]
        · simp [List.lookup, beq_false_of_ne hky, beq_false_of_ne hkx]
  | trans p1 p2 ih1 ih2 =>
      exact (ih1 nd).trans (ih2 ((p1.map Prod.fst).nodup nd))

/-- Sorting the keys cancels any difference in insertion order. -/
theorem sortedKeys_eq_of_perm {l1 l2 : Params} (p : l1.Perm l2) :
    sortedKeys l1 = sortedKeys l2 :=
  List.eq_of_perm_of_sorted
    ((List.perm_insertionSort keyLe _).trans
      ((p.map Prod.fst).trans (List.perm_insertionSort keyLe _).symm))
    (List.sorted_insertionSort keyLe _)
    (List.sorted_insertionSort keyLe _)

/-- The signed string depends only on the key-value pairs, not on the
insertion order. -/
theorem toSignStr_eq_of_perm {l1 l2 : Params} (p : l1.Perm l2)
    (nd : (l1.map Prod.fst).Nodup) : toSignStr l1 = toSignStr l2 := by
  unfold toSignStr
  rw [sortedKeys_eq_of_perm p]
  apply List.foldl_ext
  intro acc k _
  unfold lookupStr
  rw [lookup_eq_of_perm p nd k]

/-! ### JSON values and Python-exception modelling for responses -/

/-- A parsed JSON value as produced by `r.json()` (arrays do not occur in
the claims and are omitted from the model). -/
inductive JVal where
  | null : JVal
  | bool (b : Bool) : JVal
  | num (n : Int) : JVal
  | str (s : String) : JVal
  | obj (fields : List (String × JVal)) : JVal

/-- Python truthiness of a JSON value. -/
def pyTruthyJ : JVal → Bool
  | JVal.null => false
  | JVal.bool b => b
  | JVal.num n => n ≠ 0
  | JVal.str s => s ≠ ""
  | JVal.obj fs => !fs.isEmpty

/-- The digits of a decimal literal, or `none` when some character is not a
digit (or the list is empty). -/
def digitsToNat (l : List Char) : Option Nat :=
  if l.isEmpty then Option.none
  else if l.all Char.isDigit then
    some (l.foldl (fun acc c => acc * 10 + (c.toNat - 48)) 0)
  else Option.none

/-- Python `int(s)` on a string: optional sign followed by digits; `none`
models the `ValueError` raised otherwise (e.g. `int("NO_SIGNATURE")`). -/
def pyIntOfString (s : String) : Option Int :=
  match s.data with
  | '-' :: rest => (digitsToNat rest).map (fun n => -(n : Int))
  | '+' :: rest => (digitsToNat rest).map (fun n => (n : Int))
  | l => (digitsToNat l).map (fun n => (n : Int))

/-- Python `int(x)` on a JSON value; `Except.error` models the raised
`TypeError`/`ValueError`. -/
def pyIntJ : JVal → Except Unit Int
  | JVal.num n => Except.ok n
  | JVal.bool b => Except.ok (if b then 1 else 0)
  | JVal.str s =>
      match pyIntOfString s with
      | some n => Except.ok n
      | Option.none => Except.error ()
  | _ => Except.error ()

/-- Python `j[k]` with a string key: `KeyError` when the key is absent,
`TypeError` when `j` is not a dict — both modelled as `Except.error`. -/
def jIndex (j : JVal) (k : String) : Except Unit JVal :=
  match j with
  | JVal.obj fs =>
      match List.lookup k fs with
      | some v => Except.ok v
      | Option.none => Except.error ()
  | _ => Except.error ()

/-- `CryptoComApi.response_code`: per-generation name of the status-code
field. -/
def response_code : ApiVersion → String
  | ApiVersion.V1 => "code"
  | ApiVersion.V2 => "code"

/-- `CryptoComApi.response_message`: per-generation name of the message
field. -/
def response_message : ApiVersion → String
  | ApiVersion.V1 => "msg"
  | ApiVersion.V2 => "message"

/-- `CryptoComApi.response_result`: per-generation name of the payload
field. -/
def response_result : ApiVersion → String
  | ApiVersion.V1 => "data"
  | ApiVersion.V2 => "result"

/-- `CryptoComApi.get_code`: `self.response and self.response[field]`.
A falsy (or absent) response is returned as-is; otherwise the field is
read, which can raise. -/
def get_code (v : ApiVersion) (resp : Option JVal) : Except Unit JVal :=
  match resp with
  | Option.none => Except.ok JVal.null
  | some j => if pyTruthyJ j then jIndex j (response_code v) else Except.ok j

/-- `CryptoComApi.get_message`, same shape as `get_code`. -/
def get_message (v : ApiVersion) (resp : Option JVal) : Except Unit JVal :=
  match resp with
  | Option.none => Except.ok JVal.null
  | some j => if pyTruthyJ j then jIndex j (response_message v) else Except.ok j

/-- `CryptoComApi.get_result`, same shape as `get_code`. -/
def get_result (v : ApiVersion) (resp : Option JVal) : Except Unit JVal :=
  match resp with
  | Option.none => Except.ok JVal.null
  | some j => if pyTruthyJ j then jIndex j (response_result v) else Except.ok j

/-- What the transport hands back: HTTP status, raw body text, and the
parse result of `r.json()` (`none` models the parse raising). -/
structure RawResponse where
  status : Nat
  text : String
  json : Option JVal

/-- Python `d[k] = v` on a JSON dict: replace in place or append. -/
def dictSet (d : List (String × JVal)) (k : String) (v : JVal) :
    List (String × JVal) :=
  if d.any (fun p => p.1 == k) then
    d.map (fun p => if p.1 == k then (k, v) else p)
  else d ++ [(k, v)]

/-- Python `d.update(e)` on JSON dicts. -/
def dictUpdate (d e : List (String × JVal)) : List (String × JVal) :=
  e.foldl (fun acc p => dictSet acc p.1 p.2) d

/-- The `try`-block of `_request`'s response handling (lines 129-147):
non-200 statuses build an `http_code` error; otherwise the body is parsed,
the status-code field is read and converted with `int`, the message field
is read (the warning log evaluates it) when the code is non-zero, and the
payload field is unwrapped on success.  `Except.error resp` models a raised
Python exception (carrying the value of `self.response` at that point);
the result triple is (returned value, new `self.response`, new
`self.error`). -/
def normalizeTry (v : ApiVersion) (raw : RawResponse)
    (prevResp : Option JVal) :
    Except (Option JVal) (JVal × Option JVal × Option JVal) :=
  if raw.status ≠ 200 then
    let base : List (String × JVal) := [("http_code", JVal.num raw.status)]
    let err := match raw.json with
      | some (JVal.obj fs) => JVal.obj (dictUpdate base fs)
      | _ => JVal.obj base
    Except.ok (JVal.obj [], prevResp, some err)
  else
    match raw.json with
    | Option.none => Except.error prevResp
    | some j =>
      match get_code v (some j) with
      | Except.error _ => Except.error (some j)
      | Except.ok c =>
        match pyIntJ c with
        | Except.error _ => Except.error (some j)
        | Except.ok n =>
          if n ≠ 0 then
            match get_message v (some j) with
            | Except.error _ => Except.error (some j)
            | Except.ok _ => Except.ok (JVal.obj [], some j, some j)
          else
            match get_result v (some j) with
            | Except.error _ => Except.error (some j)
            | Except.ok r => Except.ok (r, some j, Option.none)

/-- The full response normalization of `_request` (lines 129-151): the
`try` block plus the blanket `except Exception` handler, which stores
`{'exception': r.text}` and returns `{}`. -/
def normalizeResponse (v : ApiVersion) (raw : RawResponse)
    (prevResp : Option JVal) : JVal × Option JVal × Option JVal :=
  match normalizeTry v raw prevResp with
  | Except.ok out => out
  | Except.error resp =>
      (JVal.obj [], resp, some (JVal.obj [("exception", JVal.str raw.text)]))

/-- Top-level key list of a JSON value (a projection used to separate
distinct concrete outcomes). -/
def topKeys : JVal → List String
  | JVal.obj fs => fs.map Prod.fst
  | _ => []

/-! ### Claim theorems: the signer -/

/-- C1: for the legacy generation (V1), for every parameter mapping and
secret, `_sign` returns the hex SHA-256 digest of the sorted key+value
concatenation with the raw secret appended; in particular, for params
`symbol=ethbtc, side=BUY` and secret `s3cr3t` it is the SHA-256 of
`"side" + "BUY" + "symbol" + "ethbtc" + "s3cr3t"`. -/
theorem sign_v1_matches_spec :
    (∀ (key secret : String) (params : Params) (method : Option String)
        (id nonce : Option Int),
      _sign ApiVersion.V1 key secret params method id nonce
        = some (specSignV1 secret params)) ∧
    _sign ApiVersion.V1 "" "s3cr3t"
        [("symbol", PVal.str "ethbtc"), ("side", PVal.str "BUY")]
        Option.none Option.none Option.none
      = some (sha256HexOfString
          ("side" ++ "BUY" ++ "symbol" ++ "ethbtc" ++ "s3cr3t")) := by
  constructor
  · intro key secret params method id nonce
    simp only [_sign, specSignV1, toSignStr_eq_specSortedConcat]
  · decide

/-- C2 (counterexample): the claim's generation-B formula stringifies any
present id, but the code's `str(id) if id else ""` drops a present id of
`0` by Python truthiness; at `id = 0` the two signatures differ. -/
theorem sign_v2_claim_fails_at_zero_id :
    _sign ApiVersion.V2 "k" "s" [] (some "m") (some 0) (some 7)
      ≠ some (specSignV2AsStated "k" "s" [] "m" (some 0) 7) := by
  decide

/-- C2 (amended): for the current generation (V2), the signature is the hex
HMAC-SHA-256, keyed by the secret, of `method + (id stringified if present
and nonzero, else "") + apiKey + sortedConcat + nonce`. -/
theorem sign_v2_matches_amended_spec :
    ∀ (key secret : String) (params : Params) (method : String)
      (id : Option Int) (nonce : Int),
      _sign ApiVersion.V2 key secret params (some method) id (some nonce)
        = some (specSignV2 key secret params method id nonce) := by
  intro key secret params method id nonce
  simp only [_sign, specSignV2, toSignStr_eq_specSortedConcat, pyStrOptInt]

/-- C3: for both generations, two parameter mappings with the same
key-value pairs built in different insertion orders produce the same
signature. -/
theorem sign_insertion_order_invariant :
    ∀ (v : ApiVersion) (key secret : String) (method : Option String)
      (id nonce : Option Int) (l1 l2 : Params),
      l1.Perm l2 → (l1.map Prod.fst).Nodup →
      _sign v key secret l1 method id nonce
        = _sign v key secret l2 method id nonce := by
  intro v key secret method id nonce l1 l2 p nd
  unfold _sign
  rw [toSignStr_eq_of_perm p nd]

/-- Witness for C3 at a concrete pair of permuted parameter dicts. -/
theorem sign_insertion_order_invariant_witness :
    ([("symbol", PVal.str "ethbtc"), ("side", PVal.str "BUY")] : Params).Perm
        [("side", PVal.str "BUY"), ("symbol", PVal.str "ethbtc")] ∧
    (([("symbol", PVal.str "ethbtc"), ("side", PVal.str "BUY")] : Params).map
        Prod.fst).Nodup ∧
    _sign ApiVersion.V1 "" "s3cr3t"
        [("symbol", PVal.str "ethbtc"), ("side", PVal.str "BUY")]
        Option.none Option.none Option.none
      = _sign ApiVersion.V1 "" "s3cr3t"
        [("side", PVal.str "BUY"), ("symbol", PVal.str "ethbtc")]
        Option.none Option.none Option.none :=
  ⟨List.Perm.swap ("side", PVal.str "BUY") ("symbol", PVal.str "ethbtc") [],
   by decide,
   sign_insertion_order_invariant ApiVersion.V1 "" "s3cr3t"
     Option.none Option.none Option.none _ _
     (List.Perm.swap ("side", PVal.str "BUY") ("symbol", PVal.str "ethbtc") [])
     (by decide)⟩

/-! ### Claim theorems: the response normalizer -/

/-- C4 (counterexample): on the body `{"code": "NO_SIGNATURE"}` the
normalizer does **not** produce the failure `{code: "NO_SIGNATURE"}`
claimed: `int("NO_SIGNATURE")` raises, the blanket handler runs, and the
stored error is `{'exception': rawText}` instead. -/
theorem normalize_no_signature_counterexample :
    (normalizeResponse ApiVersion.V2
        ⟨200, "\x7b\"code\": \"NO_SIGNATURE\"\x7d",
         some (JVal.obj [("code", JVal.str "NO_SIGNATURE")])⟩
        Option.none).2.2
      ≠ some (JVal.obj [("code", JVal.str "NO_SIGNATURE")]) :=
  fun h => absurd (congrArg (Option.map topKeys) h) (by decide)

/-- C4 (amended): for HTTP 200, `{"code":0,"data":{"x":1}}` on a legacy
client yields `Success({"x":1})` and `{"code":0,"result":{"x":1}}` on a
current-generation client yields `Success({"x":1})` (payload returned,
error `None`); but `{"code":"NO_SIGNATURE"}` yields the Failure
`{exception: rawText}`, because the `int()` conversion of the non-numeric
code raises into the blanket handler. -/
theorem normalize_roundtrip_amended :
    normalizeResponse ApiVersion.V1
        ⟨200, "\x7b\"code\": 0, \"data\": \x7b\"x\": 1\x7d\x7d",
         some (JVal.obj
           [("code", JVal.num 0), ("data", JVal.obj [("x", JVal.num 1)])])⟩
        Option.none
      = (JVal.obj [("x", JVal.num 1)],
         some (JVal.obj
           [("code", JVal.num 0), ("data", JVal.obj [("x", JVal.num 1)])]),
         Option.none)
  ∧ normalizeResponse ApiVersion.V2
        ⟨200, "\x7b\"code\": 0, \"result\": \x7b\"x\": 1\x7d\x7d",
         some (JVal.obj
           [("code", JVal.num 0), ("result", JVal.obj [("x", JVal.num 1)])])⟩
        Option.none
      = (JVal.obj [("x", JVal.num 1)],
         some (JVal.obj
           [("code", JVal.num 0), ("result", JVal.obj [("x", JVal.num 1)])]),
         Option.none)
  ∧ normalizeResponse ApiVersion.V2
        ⟨200, "\x7b\"code\": \"NO_SIGNATURE\"\x7d",
         some (JVal.obj [("code", JVal.str "NO_SIGNATURE")])⟩
        Option.none
      = (JVal.obj [],
         some (JVal.obj [("code", JVal.str "NO_SIGNATURE")]),
         some (JVal.obj
           [("exception", JVal.str "\x7b\"code\": \"NO_SIGNATURE\"\x7d")])) :=
  ⟨rfl, rfl, rfl⟩

/-- C6: every exception raised inside the `try` block of the response
handler is caught and turned into a returned `{'exception': rawText}`
failure (never re-raised to the caller); in particular an HTTP-200
response whose body is not valid JSON yields that failure, not a crash. -/
theorem normalizer_never_raises :
    ∀ (v : ApiVersion) (raw : RawResponse) (prevResp : Option JVal),
      (∀ e, normalizeTry v raw prevResp = Except.error e →
        normalizeResponse v raw prevResp
          = (JVal.obj [], e,
             some (JVal.obj [("exception", JVal.str raw.text)]))) ∧
      (raw.status = 200 → raw.json = Option.none →
        normalizeResponse v raw prevResp
          = (JVal.obj [], prevResp,
             some (JVal.obj [("exception", JVal.str raw.text)]))) := by
  intro v raw prevResp
  constructor
  · intro e h
    unfold normalizeResponse
    rw [h]
  · intro h200 hjson
    have h : normalizeTry v raw prevResp = Except.error prevResp := by
      unfold normalizeTry
      rw [h200, hjson]
      simp
    unfold normalizeResponse
    rw [h]

/-- Witness for C6 on a concrete 200-status non-JSON response. -/
theorem normalizer_never_raises_witness :
    (200 : Nat) = 200 ∧
    normalizeResponse ApiVersion.V2 ⟨200, "not json", Option.none⟩ Option.none
      = (JVal.obj [], Option.none,
         some (JVal.obj [("exception", JVal.str "not json")])) :=
  ⟨rfl,
   (normalizer_never_raises ApiVersion.V2 ⟨200, "not json", Option.none⟩
     Option.none).2 rfl rfl⟩

/-! ### The client, rate limiter and request pipeline -/

def RATE_LIMIT_PER_SECOND : Int := 10

def LIMIT_ORDER : Int := 1

def MARKET_ORDER : Int := 2

/-- Minimum spacing between call starts: `1000 / RATE_LIMIT_PER_SECOND`
milliseconds (the Python float division is exact here). -/
def minSpacing : Int := 1000 / RATE_LIMIT_PER_SECOND

/-- The throttle wait of `_request` (lines 98-102): when the elapsed time
since the last call is below the spacing, sleep for
`spacing - min(spacing, elapsed)` milliseconds; otherwise do not sleep. -/
def rateDelay (elapsed : Int) : Int :=
  if elapsed < minSpacing then minSpacing - min minSpacing elapsed else 0

/-- `CryptoComApi` instance state: generation, credentials, the rate
limiter's last-call timestamp, and the last response/error fields. -/
structure Client where
  version : ApiVersion
  key : String := ""
  secret : String := ""
  public_only : Bool := true
  last_api_call : Int := 0
  response : Option JVal := Option.none
  error : Option JVal := Option.none

/-- `CryptoComApi._API_VERSION_ROOT_PATH`. -/
def _API_VERSION_ROOT_PATH : ApiVersion → String
  | ApiVersion.V1 => "https://api.crypto.com/v1/"
  | ApiVersion.V2 => "https://api.crypto.com/v2/"

/-- A wire value: a scalar, or a nested parameter dict (the `params` entry
of the V2 envelope). -/
inductive WVal where
  | scalar (v : PVal) : WVal
  | dict (d : Params) : WVal

/-- The outbound body/query dict handed to the transport. -/
abbrev ReqBody : Type := List (String × WVal)

/-- One outbound HTTP exchange as seen by the transport adapter. -/
structure HttpCall where
  httpMethod : String
  url : String
  body : Option ReqBody

/-- The environment of one `_post`/`_request` run: the timestamps returned
by `current_timestamp()` in call order (`tStamp` inside `_post`, `now1` at
the throttle check, `now2` after the wait) and the transport's response. -/
structure ApiEnv where
  tStamp : Int
  now1 : Int
  now2 : Int
  raw : RawResponse

/-- `CryptoComApi._request`: throttle, stamp `last_api_call`, reset
`error`, dispatch (only `post`/`delete`/`get` reach the transport; any
other method string returns `{}` without a call), then normalize the
response.  Result: (returned value, updated client, transport calls). -/
def _request (c : Client) (env : ApiEnv) (path : String)
    (param : Option ReqBody) (meth : String) :
    JVal × Client × List HttpCall :=
  let _delay := rateDelay (env.now1 - c.last_api_call)
  let c1 := { c with last_api_call := env.now2, error := Option.none }
  if meth = "post" ∨ meth = "delete" ∨ meth = "get" then
    let call : HttpCall :=
      ⟨meth, _API_VERSION_ROOT_PATH c.version ++ path, param⟩
    let out := normalizeResponse c.version env.raw c1.response
    (out.1, { c1 with response := out.2.1, error := out.2.2 }, [call])
  else
    (JVal.obj [], c1, [])

/-- Python `params[k] = v` on a parameter dict. -/
def dictSetP (d : Params) (k : String) (v : PVal) : Params :=
  if d.any (fun p => p.1 == k) then
    d.map (fun p => if p.1 == k then (k, v) else p)
  else d ++ [(k, v)]

/-- `CryptoComApi._post`: reject immediately in public-only mode; for V1
flatten `api_key`/`time`/`sign` into the business params; for V2 build the
envelope `{params, sig, api_key, method, nonce, id}` with `id = 1` and a
fresh timestamp nonce. -/
def _post (c : Client) (env : ApiEnv) (path : String) (params : Params) :
    JVal × Client × List HttpCall :=
  if c.public_only then (JVal.obj [], c, [])
  else
    match c.version with
    | ApiVersion.V1 =>
        let params1 :=
          dictSetP (dictSetP params "api_key" (PVal.str c.key))
            "time" (PVal.num env.tStamp)
        let sig :=
          match _sign ApiVersion.V1 c.key c.secret params1
              Option.none Option.none Option.none with
          | some s => s
          | Option.none => ""
        let params2 := dictSetP params1 "sign" (PVal.str sig)
        _request c env path
          (some (params2.map (fun p => (p.1, WVal.scalar p.2)))) "post"
    | ApiVersion.V2 =>
        let id : Int := 1
        let nonce := env.tStamp
        let sig :=
          match _sign ApiVersion.V2 c.key c.secret params
              (some path) (some id) (some nonce) with
          | some s => s
          | Option.none => ""
        let param : ReqBody :=
          [("params", WVal.dict params),
           ("sig", WVal.scalar (PVal.str sig)),
           ("api_key", WVal.scalar (PVal.str c.key)),
           ("method", WVal.scalar (PVal.str path)),
           ("nonce", WVal.scalar (PVal.num nonce)),
           ("id", WVal.scalar (PVal.num id))]
        _request c env path (some param) "post"

/-! ### Endpoint facade (the methods the claims mention) -/

/-- `CryptoComApi.klines`: V1-only market-data endpoint. -/
def klines (c : Client) (env : ApiEnv) (symbol period : PVal) :
    JVal × Client × List HttpCall :=
  if c.version ≠ ApiVersion.V1 then (JVal.obj [], c, [])
  else
    _request c env "klines"
      (some [("symbol", WVal.scalar symbol), ("period", WVal.scalar period)])
      "get"

/-- `CryptoComApi.prices`: V1-only market-data endpoint. -/
def prices (c : Client) (env : ApiEnv) : JVal × Client × List HttpCall :=
  if c.version ≠ ApiVersion.V1 then (JVal.obj [], c, [])
  else _request c env "ticker/price" Option.none "get"

/-- `CryptoComApi.balance`. -/
def balance (c : Client) (env : ApiEnv) (currency : PVal) :
    JVal × Client × List HttpCall :=
  let path := match c.version with
    | ApiVersion.V1 => "account"
    | ApiVersion.V2 => "private/get-account-summary"
  let param : Params := match c.version with
    | ApiVersion.V1 => []
    | ApiVersion.V2 =>
        if pyTruthy currency then [("currency", currency)] else []
  _post c env path param

/-- `CryptoComApi.create_order`.  Only the parameter-dict of the active
generation is modelled; the source also mutates the dict of the inactive
generation, which is then discarded. -/
def create_order (c : Client) (env : ApiEnv) (symbol side : PVal)
    (_type : Int) (quantity price fee_coin notional client_oid : PVal) :
    JVal × Client × List HttpCall :=
  let path := match c.version with
    | ApiVersion.V1 => "order"
    | ApiVersion.V2 => "private/create-order"
  let base : Params := match c.version with
    | ApiVersion.V1 =>
        [("symbol", symbol), ("side", side), ("type", PVal.num _type),
         ("volume", quantity)]
    | ApiVersion.V2 =>
        [("instrument_name", symbol), ("side", side),
         ("type", PVal.str (if _type = 2 then "MARKET" else "LIMIT"))]
  let p1 := if pyTruthy price then dictSetP base "price" price else base
  let p2 := match c.version with
    | ApiVersion.V1 => p1
    | ApiVersion.V2 =>
        if pyTruthy quantity then dictSetP p1 "quantity" quantity else p1
  let p3 := match c.version with
    | ApiVersion.V1 => p2
    | ApiVersion.V2 =>
        if pyTruthy notional then dictSetP p2 "notional" notional else p2
  let p4 := match c.version with
    | ApiVersion.V1 => p3
    | ApiVersion.V2 =>
        if pyTruthy client_oid then dictSetP p3 "client_oid" client_oid
        else p3
  let p5 := match c.version with
    | ApiVersion.V1 =>
        if pyTruthy fee_coin then
          dictSetP p4 "fee_is_user_exchange_coin" fee_coin
        else p4
    | ApiVersion.V2 => p4
  _post c env path p5

/-- `CryptoComApi.create_limit_order`. -/
def create_limit_order (c : Client) (env : ApiEnv) (symbol side amount
    price fee_coin client_oid : PVal) : JVal × Client × List HttpCall :=
  create_order c env symbol side LIMIT_ORDER amount price fee_coin
    PVal.none_ client_oid

/-- `CryptoComApi.create_market_order`. -/
def create_market_order (c : Client) (env : ApiEnv) (symbol side total
    fee_coin client_oid : PVal) : JVal × Client × List HttpCall :=
  create_order c env symbol side MARKET_ORDER total PVal.none_ fee_coin
    PVal.none_ client_oid

/-- `CryptoComApi.show_order`. -/
def show_order (c : Client) (env : ApiEnv) (symbol order_id : PVal) :
    JVal × Client × List HttpCall :=
  let path := match c.version with
    | ApiVersion.V1 => "showOrder"
    | ApiVersion.V2 => "private/get-order-detail"
  let param : Params := match c.version with
    | ApiVersion.V1 => [("symbol", symbol), ("order_id", order_id)]
    | ApiVersion.V2 => [("order_id", order_id)]
  _post c env path param

/-- `CryptoComApi.cancel_order`. -/
def cancel_order (c : Client) (env : ApiEnv) (symbol order_id : PVal) :
    JVal × Client × List HttpCall :=
  let path := match c.version with
    | ApiVersion.V1 => "orders/cancel"
    | ApiVersion.V2 => "private/cancel-order"
  let param : Params := match c.version with
    | ApiVersion.V1 => [("symbol", symbol), ("order_id", order_id)]
    | ApiVersion.V2 =>
        [("instrument_name", symbol), ("order_id", order_id)]
  _post c env path param

/-- `CryptoComApi.cancel_all_orders`. -/
def cancel_all_orders (c : Client) (env : ApiEnv) (symbol : PVal) :
    JVal × Client × List HttpCall :=
  let path := match c.version with
    | ApiVersion.V1 => "cancelAllOrders"
    | ApiVersion.V2 => "private/cancel-all-orders"
  let param : Params := match c.version with
    | ApiVersion.V1 => [("symbol", symbol)]
    | ApiVersion.V2 => [("instrument_name", symbol)]
  _post c env path param

/-- `CryptoComApi.open_orders`. -/
def open_orders (c : Client) (env : ApiEnv)
    (symbol page_size page_number : PVal) :
    JVal × Client × List HttpCall :=
  let path := match c.version with
    | ApiVersion.V1 => "openOrders"
    | ApiVersion.V2 => "private/get-open-orders"
  let base : Params := match c.version with
    | ApiVersion.V1 => [("symbol", symbol)]
    | ApiVersion.V2 =>
        if pyTruthy symbol then [("instrument_name", symbol)] else []
  let p1 :=
    if pyTruthy page_size then
      dictSetP base
        (match c.version with
         | ApiVersion.V1 => "pageSize"
         | ApiVersion.V2 => "page_size") page_size
    else base
  let p2 :=
    if pyTruthy page_number then dictSetP p1 "page" page_number else p1
  _post c env path p2

/-- `CryptoComApi.all_orders`. -/
def all_orders (c : Client) (env : ApiEnv)
    (symbol page_size page_number start stop : PVal) :
    JVal × Client × List HttpCall :=
  let path := match c.version with
    | ApiVersion.V1 => "allOrders"
    | ApiVersion.V2 => "private/get-order-history"
  let base : Params := match c.version with
    | ApiVersion.V1 => [("symbol", symbol)]
    | ApiVersion.V2 =>
        if pyTruthy symbol then [("instrument_name", symbol)] else []
  let p1 :=
    if pyTruthy page_size then
      dictSetP base
        (match c.version with
         | ApiVersion.V1 => "pageSize"
         | ApiVersion.V2 => "page_size") page_size
    else base
  let p2 :=
    if pyTruthy page_number then dictSetP p1 "page" page_number else p1
  let p3 :=
    if pyTruthy start then
      dictSetP p2
        (match c.version with
         | ApiVersion.V1 => "startDate"
         | ApiVersion.V2 => "start_ts") start
    else p2
  let p4 :=
    if pyTruthy stop then
      dictSetP p3
        (match c.version with
         | ApiVersion.V1 => "endDate"
         | ApiVersion.V2 => "end_ts") stop
    else p3
  _post c env path p4

/-- `CryptoComApi.all_executed_orders`. -/
def all_executed_orders (c : Client) (env : ApiEnv)
    (symbol page_size page_number start stop sort : PVal) :
    JVal × Client × List HttpCall :=
  let path := match c.version with
    | ApiVersion.V1 => "myTrades"
    | ApiVersion.V2 => "private/get-trades"
  let base : Params := match c.version with
    | ApiVersion.V1 => [("symbol", symbol)]
    | ApiVersion.V2 =>
        if pyTruthy symbol then [("instrument_name", symbol)] else []
  let p1 :=
    if pyTruthy page_size then
      dictSetP base
        (match c.version with
         | ApiVersion.V1 => "pageSize"
         | ApiVersion.V2 => "page_size") page_size
    else base
  let p2 :=
    if pyTruthy page_number then dictSetP p1 "page" page_number else p1
  let p3 :=
    if pyTruthy start then
      dictSetP p2
        (match c.version with
         | ApiVersion.V1 => "startDate"
         | ApiVersion.V2 => "start_ts") start
    else p2
  let p4 :=
    if pyTruthy stop then
      dictSetP p3
        (match c.version with
         | ApiVersion.V1 => "endDate"
         | ApiVersion.V2 => "end_ts") stop
    else p3
  let p5 := match c.version with
    | ApiVersion.V1 =>
        if pyTruthy sort then dictSetP p4 "sort" sort else p4
    | ApiVersion.V2 => p4
  _post c env path p5

/-! ### Claim theorems: rate limiter, pipeline and facade -/

/-- C7: for every non-negative elapsed time, the throttle delay equals
`spacing - min(spacing, elapsed)` (spacing = 1000/RATE_LIMIT_PER_SECOND =
100 ms), is never negative, never exceeds the spacing, and vanishes when
the elapsed time reaches the spacing. -/
theorem rate_delay_spec :
    ∀ e : Int, 0 ≤ e →
      rateDelay e = minSpacing - min minSpacing e ∧
      0 ≤ rateDelay e ∧ rateDelay e ≤ minSpacing ∧
      (minSpacing ≤ e → rateDelay e = 0) := by
  intro e he
  have hs : minSpacing = 100 := by decide
  unfold rateDelay
  rw [hs]
  rcases lt_or_le e 100 with h | h
  · rw [if_pos h, min_eq_right h.le]
    exact ⟨rfl, by omega, by omega, fun hle => by omega⟩
  · rw [if_neg (not_lt.mpr h), min_eq_left h]
    exact ⟨by omega, le_refl 0, by omega, fun _ => rfl⟩

/-- Witness for C7 at a concrete elapsed time of 42 ms. -/
theorem rate_delay_spec_witness :
    (0 : Int) ≤ 42 ∧
    (rateDelay 42 = minSpacing - min minSpacing 42 ∧
      0 ≤ rateDelay 42 ∧ rateDelay 42 ≤ minSpacing ∧
      (minSpacing ≤ 42 → rateDelay 42 = 0)) :=
  ⟨by decide, rate_delay_spec 42 (by decide)⟩

/-- C8: every `_request` run stamps `last_api_call` with the timestamp
taken after the throttle wait and immediately before dispatch (`now2`),
whatever the transport later returns, and leaves the credential fields
untouched. -/
theorem request_stamps_timestamp_and_preserves_credentials :
    ∀ (c : Client) (env : ApiEnv) (path : String) (param : Option ReqBody)
      (meth : String),
      ((_request c env path param meth).2.1).last_api_call = env.now2 ∧
      ((_request c env path param meth).2.1).key = c.key ∧
      ((_request c env path param meth).2.1).secret = c.secret ∧
      ((_request c env path param meth).2.1).public_only = c.public_only := by
  intro c env path param meth
  unfold _request
  by_cases h : meth = "post" ∨ meth = "delete" ∨ meth = "get"
  · simp [h]
  · simp [h]

/-- C5: on a public-only client every trading/account method returns the
empty rejection result `{}` at once, issues no transport call, and leaves
the client state unchanged. -/
theorem public_only_rejection :
    ∀ (c : Client) (env : ApiEnv), c.public_only = true →
      ∀ (currency symbol side order_id page_size page_number start stop
          sort quantity price fee_coin notional client_oid amount total :
            PVal) (_type : Int),
      balance c env currency = (JVal.obj [], c, []) ∧
      create_order c env symbol side _type quantity price fee_coin notional
          client_oid = (JVal.obj [], c, []) ∧
      create_limit_order c env symbol side amount price fee_coin client_oid
          = (JVal.obj [], c, []) ∧
      create_market_order c env symbol side total fee_coin client_oid
          = (JVal.obj [], c, []) ∧
      show_order c env symbol order_id = (JVal.obj [], c, []) ∧
      cancel_order c env symbol order_id = (JVal.obj [], c, []) ∧
      cancel_all_orders c env symbol = (JVal.obj [], c, []) ∧
      open_orders c env symbol page_size page_number
          = (JVal.obj [], c, []) ∧
      all_orders c env symbol page_size page_number start stop
          = (JVal.obj [], c, []) ∧
      all_executed_orders c env symbol page_size page_number start stop sort
          = (JVal.obj [], c, []) := by
  intro c env h currency symbol side order_id page_size page_number start
    stop sort quantity price fee_coin notional client_oid amount total _type
  simp [balance, create_order, create_limit_order, create_market_order,
    show_order, cancel_order, cancel_all_orders, open_orders, all_orders,
    all_executed_orders, _post, h]

/-- Witness for C5 on a concrete credential-less V2 client. -/
theorem public_only_rejection_witness :
    (Client.mk ApiVersion.V2 "" "" true 0 Option.none
        Option.none).public_only = true ∧
    balance (Client.mk ApiVersion.V2 "" "" true 0 Option.none Option.none)
        (ApiEnv.mk 0 0 0 (RawResponse.mk 200 "" Option.none)) PVal.none_
      = (JVal.obj [],
         Client.mk ApiVersion.V2 "" "" true 0 Option.none Option.none,
         []) :=
  ⟨rfl,
   (public_only_rejection
     (Client.mk ApiVersion.V2 "" "" true 0 Option.none Option.none)
     (ApiEnv.mk 0 0 0 (RawResponse.mk 200 "" Option.none)) rfl
     PVal.none_ PVal.none_ PVal.none_ PVal.none_ PVal.none_ PVal.none_
     PVal.none_ PVal.none_ PVal.none_ PVal.none_ PVal.none_ PVal.none_
     PVal.none_ PVal.none_ PVal.none_ PVal.none_ 1).1⟩

/-- C9: a V2 client with credentials calling
`create_limit_order("ETH_BTC", "BUY", amount=1, price=100)` sends exactly
one POST whose body is the envelope `method="private/create-order"`,
nested `params = {instrument_name, side, type=LIMIT, price=100,
quantity=1}`, and `sig` equal to the independently computed generation-B
HMAC formula over those params. -/
theorem create_limit_order_wire_body :
    ∀ (c : Client) (env : ApiEnv),
      c.public_only = false → c.version = ApiVersion.V2 →
      (create_limit_order c env (PVal.str "ETH_BTC") (PVal.str "BUY")
          (PVal.num 1) (PVal.num 100) PVal.none_ PVal.none_).2.2
        = [⟨"post", "https://api.crypto.com/v2/private/create-order",
            some [("params", WVal.dict
                    [("instrument_name", PVal.str "ETH_BTC"),
                     ("side", PVal.str "BUY"),
                     ("type", PVal.str "LIMIT"),
                     ("price", PVal.num 100),
                     ("quantity", PVal.num 1)]),
                  ("sig", WVal.scalar (PVal.str
                    (specSignV2 c.key c.secret
                      [("instrument_name", PVal.str "ETH_BTC"),
                       ("side", PVal.str "BUY"),
                       ("type", PVal.str "LIMIT"),
                       ("price", PVal.num 100),
                       ("quantity", PVal.num 1)]
                      "private/create-order" (some 1) env.tStamp))),
                  ("api_key", WVal.scalar (PVal.str c.key)),
                  ("method",
                    WVal.scalar (PVal.str "private/create-order")),
                  ("nonce", WVal.scalar (PVal.num env.tStamp)),
                  ("id", WVal.scalar (PVal.num 1))]⟩] := by
  intro c env hpo hv
  obtain ⟨v, key, secret, po, last, resp, err⟩ := c
  simp only at hpo hv
  subst hpo
  subst hv
  rfl

/-- Witness for C9 on a concrete credentialed V2 client. -/
theorem create_limit_order_wire_body_witness :
    (Client.mk ApiVersion.V2 "apikey" "apisecret" false 0 Option.none
        Option.none).public_only = false ∧
    (Client.mk ApiVersion.V2 "apikey" "apisecret" false 0 Option.none
        Option.none).version = ApiVersion.V2 ∧
    (create_limit_order
        (Client.mk ApiVersion.V2 "apikey" "apisecret" false 0 Option.none
          Option.none)
        (ApiEnv.mk 1587846358253 0 0 (RawResponse.mk 200 "" Option.none))
        (PVal.str "ETH_BTC") (PVal.str "BUY") (PVal.num 1) (PVal.num 100)
        PVal.none_ PVal.none_).2.2
      = [⟨"post", "https://api.crypto.com/v2/private/create-order",
          some [("params", WVal.dict
                  [("instrument_name", PVal.str "ETH_BTC"),
                   ("side", PVal.str "BUY"),
                   ("type", PVal.str "LIMIT"),
                   ("price", PVal.num 100),
                   ("quantity", PVal.num 1)]),
                ("sig", WVal.scalar (PVal.str
                  (specSignV2 "apikey" "apisecret"
                    [("instrument_name", PVal.str "ETH_BTC"),
                     ("side", PVal.str "BUY"),
                     ("type", PVal.str "LIMIT"),
                     ("price", PVal.num 100),
                     ("quantity", PVal.num 1)]
                    "private/create-order" (some 1) 1587846358253))),
                ("api_key", WVal.scalar (PVal.str "apikey")),
                ("method",
                  WVal.scalar (PVal.str "private/create-order")),
                ("nonce", WVal.scalar (PVal.num 1587846358253)),
                ("id", WVal.scalar (PVal.num 1))]⟩] :=
  ⟨rfl, rfl,
   create_limit_order_wire_body
     (Client.mk ApiVersion.V2 "apikey" "apisecret" false 0 Option.none
       Option.none)
     (ApiEnv.mk 1587846358253 0 0 (RawResponse.mk 200 "" Option.none))
     rfl rfl⟩

/-- C10: on a current-generation (V2) client the legacy-only market-data
methods `klines` and `prices` return `{}` immediately, with no transport
call and no change to the client state (rate-limiter timestamp included). -/
theorem v2_klines_prices_empty :
    ∀ (c : Client) (env : ApiEnv) (symbol period : PVal),
      c.version = ApiVersion.V2 →
      klines c env symbol period = (JVal.obj [], c, []) ∧
      prices c env = (JVal.obj [], c, []) := by
  intro c env symbol period hv
  constructor <;> simp [klines, prices, hv]

/-- Witness for C10 on a concrete V2 client. -/
theorem v2_klines_prices_empty_witness :
    (Client.mk ApiVersion.V2 "" "" true 0 Option.none
        Option.none).version = ApiVersion.V2 ∧
    klines (Client.mk ApiVersion.V2 "" "" true 0 Option.none Option.none)
        (ApiEnv.mk 0 0 0 (RawResponse.mk 200 "" Option.none))
        PVal.none_ PVal.none_
      = (JVal.obj [],
         Client.mk ApiVersion.V2 "" "" true 0 Option.none Option.none,
         []) ∧
    prices (Client.mk ApiVersion.V2 "" "" true 0 Option.none Option.none)
        (ApiEnv.mk 0 0 0 (RawResponse.mk 200 "" Option.none))
      = (JVal.obj [],
         Client.mk ApiVersion.V2 "" "" true 0 Option.none Option.none,
         []) :=
  ⟨rfl,
   (v2_klines_prices_empty
     (Client.mk ApiVersion.V2 "" "" true 0 Option.none Option.none)
     (ApiEnv.mk 0 0 0 (RawResponse.mk 200 "" Option.none))
     PVal.none_ PVal.none_ rfl).1,
   (v2_klines_prices_empty
     (Client.mk ApiVersion.V2 "" "" true 0 Option.none Option.none)
     (ApiEnv.mk 0 0 0 (RawResponse.mk 200 "" Option.none))
     PVal.none_ PVal.none_ rfl).2⟩

